import Mathlib

/-
  Shallow embedding of ardoqpy (src/ardoqpy/ardoqpy.py), a thin Python client
  for the Ardoq REST API, together with proofs about its request/response
  contract.

  Modelling conventions:
  - Python values that appear in this client (JSON-parsed data, arguments)
    are embedded as the inductive type PyVal; Python None is PyVal.none.
  - Python exceptions are embedded as the type PyErr; a raising call returns
    Except.error.  ArdoqClientException and its (declared but unused)
    subclasses each carry their constructor argument.
  - The HTTP transport is an oracle: a list of HttpResponse values consumed
    in order.  Every operation also records the list of Request values it
    issued, so request-trace claims are statable.
  - The client object is ClientState; each method becomes a function
    ClientState -> args -> oracle -> OpResult, returning the Python result
    (or exception), the mutated state, the issued requests and the unused
    rest of the oracle.
-/

/-- Embedded Python values: the subset produced by json parsing plus the
argument values the client manipulates. Python None is the constructor
PyVal.none. -/
inductive PyVal where
  | none
  | bool (b : Bool)
  | int (n : Int)
  | str (s : String)
  | list (xs : List PyVal)
  | dict (fields : List (String × PyVal))


/-- Embedded Python exceptions raised (or merely declared) in ardoqpy.py,
plus built-in errors the interpreter itself can raise at the places this
client touches. -/
inductive PyErr where
  | ardoqClientException (arg : PyVal)
  | authorizationError (arg : PyVal)
  | notFoundError (arg : PyVal)
  | serviceUnavailable (arg : PyVal)
  | badRequest (arg : PyVal)
  | keyError (key : String)
  | typeError
  | jsonDecodeError
  | connectionError


/-- True for the four specialized exception subclasses of
ArdoqClientException that the source declares but never raises. -/
def PyErr.isSpecialized : PyErr → Bool
  | .authorizationError _ => true
  | .notFoundError _ => true
  | .serviceUnavailable _ => true
  | .badRequest _ => true
  | _ => false

/-- Python subscript v[k] with a string key: dict lookup raises KeyError
when the key is absent; subscripting any non-dict value with a string key
raises TypeError. -/
def PyVal.subscript : PyVal → String → Except PyErr PyVal
  | .dict fields, k =>
    match fields.find? (fun p => p.1 == k) with
    | some p => .ok p.2
    | Option.none => .error (.keyError k)
  | _, _ => .error .typeError

/-- Python iteration, as used by the for loop in get_workspace: a list
yields its elements, a string its characters, a dict its keys; other
values are not iterable (TypeError). -/
def PyVal.iter : PyVal → Except PyErr (List PyVal)
  | .list xs => .ok xs
  | .str s => .ok (s.toList.map (fun c => .str (String.singleton c)))
  | .dict fields => .ok (fields.map (fun p => .str p.1))
  | _ => .error .typeError

/-- An HTTP response as the client observes it: status_code, reason and
text are read directly; jsonOf models resp.json(), which either yields a
parsed value or raises (modelled as Option.none). -/
structure HttpResponse where
  status_code : Int
  reason : String
  text : String
  jsonOf : Option PyVal


inductive Method where
  | get
  | post
  | put
  | delete


/-- An outgoing HTTP request as assembled by the client: method, full URL,
query parameters, optional JSON body, and the session headers it is sent
with. -/
structure Request where
  method : Method
  url : String
  params : List (String × String)
  body : Option PyVal
  headers : List (String × String)


/-- The mutable client object: connection configuration fixed at
construction plus the three last-fetched caches (initially None). -/
structure ClientState where
  baseurl : String
  token : String
  org : String
  headers : List (String × String)
  workspaces : PyVal
  workspace : PyVal
  model : PyVal


/-- ArdoqClient.__init__: builds baseurl as hosturl plus the /api/ suffix
and the session header Authorization: Token token=token.  When token is
None (the default), concatenating the header prefix with self.token raises
TypeError, so construction fails; with a string token it always succeeds
and performs no credential validation. -/
def ArdoqClient_init (hosturl : String) (token : Option String) (org : String) :
    Except PyErr ClientState :=
  match token with
  | Option.none => .error .typeError
  | some t =>
    .ok { baseurl := hosturl ++ "/api/"
          token := t
          org := org
          headers := [("Authorization", "Token token=" ++ t)]
          workspaces := .none
          workspace := .none
          model := .none }

/-- ArdoqClient._unwrap_response: 200/201 parse and return the body, 204
returns the empty dict, anything else raises ArdoqClientException carrying
code, reason and text. -/
def unwrap_response (resp : HttpResponse) : Except PyErr PyVal :=
  let code := resp.status_code
  if code = 200 ∨ code = 201 then
    match resp.jsonOf with
    | some v => .ok v
    | Option.none => .error .jsonDecodeError
  else if code = 204 then
    .ok (.dict [])
  else
    .error (.ardoqClientException (.dict
      [("code", .int code), ("reason", .str resp.reason), ("text", .str resp.text)]))

/-- Python dict.update with a single key: replaces the value in place when
the key is present, appends the pair otherwise (insertion order kept). -/
def dictUpdate (d : List (String × String)) (k v : String) : List (String × String) :=
  if d.any (fun p => p.1 == k) then
    d.map (fun p => if p.1 == k then (k, v) else p)
  else
    d ++ [(k, v)]

/-- Assoc-list lookup on query parameters (first match). -/
def lookupParam (d : List (String × String)) (k : String) : Option String :=
  (d.find? (fun p => p.1 == k)).map (fun p => p.2)

/-- Shared body of _get/_post/_put/_delete: build the URL from baseurl and
the resource path, inject org into the query parameters, send the request
with the session headers, consume one oracle response and unwrap it.  An
exhausted oracle stands for a transport-level failure. -/
def doRequest (st : ClientState) (m : Method) (resrc : String)
    (kwargs : List (String × String)) (body : Option PyVal)
    (oracle : List HttpResponse) :
    Except PyErr PyVal × List Request × List HttpResponse :=
  let url := st.baseurl ++ resrc
  let params := dictUpdate kwargs "org" st.org
  let req : Request := ⟨m, url, params, body, st.headers⟩
  match oracle with
  | [] => (.error .connectionError, [req], [])
  | r :: rest => (unwrap_response r, [req], rest)

/-- ArdoqClient._get. -/
def client_get (st : ClientState) (resrc : String) (kwargs : List (String × String))
    (oracle : List HttpResponse) :
    Except PyErr PyVal × List Request × List HttpResponse :=
  doRequest st .get resrc kwargs Option.none oracle

/-- ArdoqClient._post. -/
def client_post (st : ClientState) (resrc : String) (payload : PyVal)
    (kwargs : List (String × String)) (oracle : List HttpResponse) :
    Except PyErr PyVal × List Request × List HttpResponse :=
  doRequest st .post resrc kwargs (some payload) oracle

/-- ArdoqClient._put. -/
def client_put (st : ClientState) (resrc : String) (payload : PyVal)
    (kwargs : List (String × String)) (oracle : List HttpResponse) :
    Except PyErr PyVal × List Request × List HttpResponse :=
  doRequest st .put resrc kwargs (some payload) oracle

/-- ArdoqClient._delete. -/
def client_delete (st : ClientState) (resrc : String) (kwargs : List (String × String))
    (oracle : List HttpResponse) :
    Except PyErr PyVal × List Request × List HttpResponse :=
  doRequest st .delete resrc kwargs Option.none oracle

/-- Result of running one client method: the returned value or raised
exception, the client object after the call, the requests issued, and the
unconsumed responses. -/
structure OpResult where
  result : Except PyErr PyVal
  state : ClientState
  requests : List Request
  leftover : List HttpResponse


/-- The for loop in get_workspace: scan the iterated elements in order;
each element whose subscript by the key _id is a string equal to ws_id sets
ws_index (tracked as the Bool) and overwrites self.workspace with that
element; a subscript error aborts the loop at that point, keeping the
updates made so far. -/
def findWsLoop (wid : String) :
    List PyVal → Bool → PyVal → Except PyErr Unit × Bool × PyVal
  | [], found, ws => (.ok (), found, ws)
  | v :: rest, found, ws =>
    match v.subscript "_id" with
    | .error e => (.error e, found, ws)
    | .ok (.str s) =>
      if s = wid then findWsLoop wid rest true v
      else findWsLoop wid rest found ws
    | .ok _ => findWsLoop wid rest found ws

/-- ArdoqClient.get_workspaces: GET workspace, cache the result in
self.workspaces and return it. -/
def get_workspaces (st : ClientState) (oracle : List HttpResponse) : OpResult :=
  match client_get st "workspace" [] oracle with
  | (.ok v, reqs, rest) => ⟨.ok v, { st with workspaces := v }, reqs, rest⟩
  | (.error e, reqs, rest) => ⟨.error e, st, reqs, rest⟩

/-- ArdoqClient.get_workspace: require ws_id; when a workspace list is
cached, scan it for entries whose _id equals ws_id (last match wins and is
stored in self.workspace); when nothing matched or no list is cached, GET
workspace/ws_id directly and cache the result in self.workspace. -/
def get_workspace (st : ClientState) (ws_id : Option String)
    (oracle : List HttpResponse) : OpResult :=
  match ws_id with
  | Option.none =>
    ⟨.error (.ardoqClientException (.str "need an id for get_workspace")), st, [], oracle⟩
  | some wid =>
    match st.workspaces with
    | .none =>
      match client_get st ("workspace" ++ "/" ++ wid) [] oracle with
      | (.ok v, reqs, rest) => ⟨.ok v, { st with workspace := v }, reqs, rest⟩
      | (.error e, reqs, rest) => ⟨.error e, st, reqs, rest⟩
    | wss =>
      match wss.iter with
      | .error e => ⟨.error e, st, [], oracle⟩
      | .ok items =>
        match findWsLoop wid items false st.workspace with
        | (.error e, _, ws1) => ⟨.error e, { st with workspace := ws1 }, [], oracle⟩
        | (.ok _, true, ws1) => ⟨.ok ws1, { st with workspace := ws1 }, [], oracle⟩
        | (.ok _, false, ws1) =>
          let st1 := { st with workspace := ws1 }
          match client_get st1 ("workspace" ++ "/" ++ wid) [] oracle with
          | (.ok v, reqs, rest) => ⟨.ok v, { st1 with workspace := v }, reqs, rest⟩
          | (.error e, reqs, rest) => ⟨.error e, st1, reqs, rest⟩

/-- ArdoqClient.create_workspace: require a workspace document, POST it. -/
def create_workspace (st : ClientState) (ws : PyVal)
    (oracle : List HttpResponse) : OpResult :=
  match ws with
  | .none =>
    ⟨.error (.ardoqClientException (.str "must provide a workspace")), st, [], oracle⟩
  | w =>
    match client_post st "workspace" w [] oracle with
    | (res, reqs, rest) => ⟨res, st, reqs, rest⟩

/-- ArdoqClient.del_workspace: require ws_id, DELETE workspace/ws_id. -/
def del_workspace (st : ClientState) (ws_id : Option String)
    (oracle : List HttpResponse) : OpResult :=
  match ws_id with
  | Option.none =>
    ⟨.error (.ardoqClientException (.str "must provide a workspace id")), st, [], oracle⟩
  | some wid =>
    match client_delete st ("workspace/" ++ wid) [] oracle with
    | (res, reqs, rest) => ⟨res, st, reqs, rest⟩

/-- ArdoqClient.get_model: require ws_id; GET the workspace by id, store it
in self.workspace, then GET the model named by its componentModel field,
store it in self.model and return it.  A missing componentModel key raises
KeyError; a non-string componentModel value makes the URL concatenation
raise TypeError. -/
def get_model (st : ClientState) (ws_id : Option String)
    (oracle : List HttpResponse) : OpResult :=
  match ws_id with
  | Option.none =>
    ⟨.error (.ardoqClientException (.str "must provide a workspaceID")), st, [], oracle⟩
  | some wid =>
    match client_get st ("workspace" ++ "/" ++ wid) [] oracle with
    | (.error e, reqs, rest) => ⟨.error e, st, reqs, rest⟩
    | (.ok ws, reqs1, rest1) =>
      let st1 := { st with workspace := ws }
      match st1.workspace.subscript "componentModel" with
      | .error e => ⟨.error e, st1, reqs1, rest1⟩
      | .ok (.str cm) =>
        match client_get st1 ("model" ++ "/" ++ cm) [] rest1 with
        | (.error e, reqs2, rest2) => ⟨.error e, st1, reqs1 ++ reqs2, rest2⟩
        | (.ok m, reqs2, rest2) => ⟨.ok m, { st1 with model := m }, reqs1 ++ reqs2, rest2⟩
      | .ok _ => ⟨.error .typeError, st1, reqs1, rest1⟩

/-- ArdoqClient.create_component: require a component document, POST it. -/
def create_component (st : ClientState) (comp : PyVal)
    (oracle : List HttpResponse) : OpResult :=
  match comp with
  | .none =>
    ⟨.error (.ardoqClientException (.str "must provide a component")), st, [], oracle⟩
  | c =>
    match client_post st "component" c [] oracle with
    | (res, reqs, rest) => ⟨res, st, reqs, rest⟩

/-- ArdoqClient.get_component: require ws_id; with comp_id GET that
component directly, otherwise GET all components under the workspace. -/
def get_component (st : ClientState) (ws_id comp_id : Option String)
    (oracle : List HttpResponse) : OpResult :=
  match ws_id with
  | Option.none =>
    ⟨.error (.ardoqClientException (.str "must provide a workspace id")), st, [], oracle⟩
  | some wid =>
    match comp_id with
    | some cid =>
      match client_get st ("component/" ++ cid) [] oracle with
      | (res, reqs, rest) => ⟨res, st, reqs, rest⟩
    | Option.none =>
      match client_get st ("workspace/" ++ wid ++ "/component") [] oracle with
      | (res, reqs, rest) => ⟨res, st, reqs, rest⟩

/-- ArdoqClient.update_component: require ws_id, comp_id and a component
document, then PUT component/comp_id. -/
def update_component (st : ClientState) (ws_id comp_id : Option String)
    (comp : PyVal) (oracle : List HttpResponse) : OpResult :=
  match ws_id, comp_id, comp with
  | Option.none, _, _ =>
    ⟨.error (.ardoqClientException
      (.str "must provide a workspace id, component id, and component")), st, [], oracle⟩
  | _, Option.none, _ =>
    ⟨.error (.ardoqClientException
      (.str "must provide a workspace id, component id, and component")), st, [], oracle⟩
  | _, _, .none =>
    ⟨.error (.ardoqClientException
      (.str "must provide a workspace id, component id, and component")), st, [], oracle⟩
  | some _, some cid, c =>
    match client_put st ("component/" ++ cid) c [] oracle with
    | (res, reqs, rest) => ⟨res, st, reqs, rest⟩

/-- ArdoqClient.del_component: require comp_id, DELETE component/comp_id. -/
def del_component (st : ClientState) (comp_id : Option String)
    (oracle : List HttpResponse) : OpResult :=
  match comp_id with
  | Option.none =>
    ⟨.error (.ardoqClientException (.str "must provide a component id")), st, [], oracle⟩
  | some cid =>
    match client_delete st ("component/" ++ cid) [] oracle with
    | (res, reqs, rest) => ⟨res, st, reqs, rest⟩

/-- ArdoqClient.create_reference: require a reference document, POST it. -/
def create_reference (st : ClientState) (ref : PyVal)
    (oracle : List HttpResponse) : OpResult :=
  match ref with
  | .none =>
    ⟨.error (.ardoqClientException (.str "must provide a reference")), st, [], oracle⟩
  | r =>
    match client_post st "reference" r [] oracle with
    | (res, reqs, rest) => ⟨res, st, reqs, rest⟩

/-- ArdoqClient.get_reference: require ws_id; ref_id defaults to the empty
string; GET reference/ref_id with workspace=ws_id as a query parameter. -/
def get_reference (st : ClientState) (ws_id ref_id : Option String)
    (oracle : List HttpResponse) : OpResult :=
  match ws_id with
  | Option.none =>
    ⟨.error (.ardoqClientException (.str "must provide a workspace id")), st, [], oracle⟩
  | some wid =>
    let rid := match ref_id with | Option.none => "" | some r => r
    match client_get st ("reference/" ++ rid) [("workspace", wid)] oracle with
    | (res, reqs, rest) => ⟨res, st, reqs, rest⟩

/-- ArdoqClient.del_reference: require ref_id, DELETE reference/ref_id. -/
def del_reference (st : ClientState) (ref_id : Option String)
    (oracle : List HttpResponse) : OpResult :=
  match ref_id with
  | Option.none =>
    ⟨.error (.ardoqClientException (.str "must provide a reference id")), st, [], oracle⟩
  | some rid =>
    match client_delete st ("reference/" ++ rid) [] oracle with
    | (res, reqs, rest) => ⟨res, st, reqs, rest⟩

/-- C1: response unwrapping returns the parsed JSON body unchanged on 200
and 201, the empty mapping on 204 regardless of the body, and raises the
generic ArdoqClientException carrying status code, reason and body text on
every other status; no specialized exception subclass is ever raised. -/
theorem unwrap_response_spec (resp : HttpResponse) :
    ((resp.status_code = 200 ∨ resp.status_code = 201) →
      ∀ v, resp.jsonOf = some v → unwrap_response resp = .ok v)
  ∧ (resp.status_code = 204 → unwrap_response resp = .ok (.dict []))
  ∧ (resp.status_code ≠ 200 → resp.status_code ≠ 201 → resp.status_code ≠ 204 →
      unwrap_response resp = .error (.ardoqClientException (.dict
        [("code", .int resp.status_code), ("reason", .str resp.reason),
         ("text", .str resp.text)])))
  ∧ (∀ e, unwrap_response resp = .error e → e.isSpecialized = false) := by
  refine ⟨?_, ?_, ?_, ?_⟩
  · intro h v hv
    simp only [unwrap_response]
    rw [if_pos h, hv]
  · intro h
    simp [unwrap_response, h]
  · intro h1 h2 h3
    simp [unwrap_response, h1, h2, h3]
  · intro e he
    simp only [unwrap_response] at he
    by_cases h1 : resp.status_code = 200 ∨ resp.status_code = 201
    · rw [if_pos h1] at he
      cases hj : resp.jsonOf with
      | none =>
        rw [hj] at he
        injection he with h
        rw [← h]
        rfl
      | some v =>
        rw [hj] at he
        cases he
    · rw [if_neg h1] at he
      by_cases h2 : resp.status_code = 204
      · rw [if_pos h2] at he
        cases he
      · rw [if_neg h2] at he
        injection he with h
        rw [← h]
        rfl

/-- Witness for C1 at a concrete 200 response with a parsed body. -/
theorem unwrap_response_spec_witness :
    unwrap_response ⟨200, "OK", "body", some (.dict [("_id", .str "x")])⟩ =
      .ok (.dict [("_id", .str "x")]) :=
  (unwrap_response_spec ⟨200, "OK", "body", some (.dict [("_id", .str "x")])⟩).1
    (Or.inl rfl) (.dict [("_id", .str "x")]) rfl

/-- C7 counterexample: constructing a client with the default token (None)
does not succeed; the Authorization-header concatenation raises TypeError
before any request is made. -/
theorem init_default_token_raises :
    ArdoqClient_init "https://app.ardoq.com/" Option.none "ardoq" = .error .typeError := rfl

/-- C7 amended: construction performs no credential validation and succeeds
for every string token, installing the derived Authorization header and
empty caches; with the token absent (None, the default) construction raises
TypeError when building the header. -/
theorem init_no_credential_validation (hosturl t org : String) :
    ArdoqClient_init hosturl (some t) org =
      .ok { baseurl := hosturl ++ "/api/", token := t, org := org,
            headers := [("Authorization", "Token token=" ++ t)],
            workspaces := .none, workspace := .none, model := .none }
  ∧ ArdoqClient_init hosturl Option.none org = .error .typeError :=
  ⟨rfl, rfl⟩

/-- C2: every operation with a required argument, called with that argument
absent (None), raises ArdoqClientException with its validation message and
returns the client state and the transport oracle untouched, with no
request issued. -/
theorem required_arg_validation (st : ClientState) (oracle : List HttpResponse)
    (wid cid rid : Option String) (doc : PyVal) :
    get_workspace st Option.none oracle =
      ⟨.error (.ardoqClientException (.str "need an id for get_workspace")), st, [], oracle⟩
  ∧ create_workspace st .none oracle =
      ⟨.error (.ardoqClientException (.str "must provide a workspace")), st, [], oracle⟩
  ∧ del_workspace st Option.none oracle =
      ⟨.error (.ardoqClientException (.str "must provide a workspace id")), st, [], oracle⟩
  ∧ get_model st Option.none oracle =
      ⟨.error (.ardoqClientException (.str "must provide a workspaceID")), st, [], oracle⟩
  ∧ create_component st .none oracle =
      ⟨.error (.ardoqClientException (.str "must provide a component")), st, [], oracle⟩
  ∧ get_component st Option.none cid oracle =
      ⟨.error (.ardoqClientException (.str "must provide a workspace id")), st, [], oracle⟩
  ∧ update_component st Option.none cid doc oracle =
      ⟨.error (.ardoqClientException
        (.str "must provide a workspace id, component id, and component")), st, [], oracle⟩
  ∧ update_component st wid Option.none doc oracle =
      ⟨.error (.ardoqClientException
        (.str "must provide a workspace id, component id, and component")), st, [], oracle⟩
  ∧ update_component st wid cid .none oracle =
      ⟨.error (.ardoqClientException
        (.str "must provide a workspace id, component id, and component")), st, [], oracle⟩
  ∧ del_component st Option.none oracle =
      ⟨.error (.ardoqClientException (.str "must provide a component id")), st, [], oracle⟩
  ∧ create_reference st .none oracle =
      ⟨.error (.ardoqClientException (.str "must provide a reference")), st, [], oracle⟩
  ∧ get_reference st Option.none rid oracle =
      ⟨.error (.ardoqClientException (.str "must provide a workspace id")), st, [], oracle⟩
  ∧ del_reference st Option.none oracle =
      ⟨.error (.ardoqClientException (.str "must provide a reference id")), st, [], oracle⟩ := by
  refine ⟨rfl, rfl, rfl, rfl, rfl, rfl, ?_, ?_, ?_, rfl, rfl, rfl, rfl⟩
  · cases cid <;> cases doc <;> rfl
  · cases wid <;> cases doc <;> rfl
  · cases wid <;> cases cid <;> rfl

/-- C9: no mutating operation touches the client object: whether it raises
or succeeds, the state after create_workspace, del_workspace,
create_component, update_component, del_component, create_reference or
del_reference equals the state before, so the workspaces, workspace and
model caches are unchanged (and can go stale). -/
theorem mutators_leave_caches (st : ClientState) (oracle : List HttpResponse)
    (wid cid rid : Option String) (doc : PyVal) :
    (create_workspace st doc oracle).state = st
  ∧ (del_workspace st wid oracle).state = st
  ∧ (create_component st doc oracle).state = st
  ∧ (update_component st wid cid doc oracle).state = st
  ∧ (del_component st cid oracle).state = st
  ∧ (create_reference st doc oracle).state = st
  ∧ (del_reference st rid oracle).state = st := by
  refine ⟨?_, ?_, ?_, ?_, ?_, ?_, ?_⟩
  · cases doc <;> rfl
  · cases wid <;> rfl
  · cases doc <;> rfl
  · cases wid <;> cases cid <;> cases doc <;> rfl
  · cases cid <;> rfl
  · cases doc <;> rfl
  · cases rid <;> rfl

/-- C4: with a workspace id supplied, get_model issues exactly two GET
requests in order, first workspace/ws_id and then model/cm where cm is the
componentModel field of the workspace just fetched, and returns that
model. -/
theorem get_model_two_requests (st : ClientState) (wid cm : String)
    (ws m : PyVal) (r1 r2 : HttpResponse) (rest : List HttpResponse)
    (h1 : unwrap_response r1 = .ok ws)
    (hcm : ws.subscript "componentModel" = .ok (.str cm))
    (h2 : unwrap_response r2 = .ok m) :
    (get_model st (some wid) (r1 :: r2 :: rest)).requests =
      [⟨.get, st.baseurl ++ ("workspace" ++ "/" ++ wid), [("org", st.org)],
        Option.none, st.headers⟩,
       ⟨.get, st.baseurl ++ ("model" ++ "/" ++ cm), [("org", st.org)],
        Option.none, st.headers⟩]
  ∧ (get_model st (some wid) (r1 :: r2 :: rest)).result = .ok m := by
  simp [get_model, client_get, doRequest, dictUpdate, h1, hcm, h2]

/-- Witness for C4 at a concrete client and transport. -/
theorem get_model_two_requests_witness :
    (get_model ⟨"b/", "t", "o", [("Authorization", "Token token=t")], .none, .none, .none⟩
        (some "w1")
        [⟨200, "OK", "", some (.dict [("componentModel", .str "m1")])⟩,
         ⟨200, "OK", "", some (.dict [("name", .str "model1")])⟩]).requests =
      [⟨.get, "b/" ++ ("workspace" ++ "/" ++ "w1"), [("org", "o")],
        Option.none, [("Authorization", "Token token=t")]⟩,
       ⟨.get, "b/" ++ ("model" ++ "/" ++ "m1"), [("org", "o")],
        Option.none, [("Authorization", "Token token=t")]⟩]
  ∧ (get_model ⟨"b/", "t", "o", [("Authorization", "Token token=t")], .none, .none, .none⟩
        (some "w1")
        [⟨200, "OK", "", some (.dict [("componentModel", .str "m1")])⟩,
         ⟨200, "OK", "", some (.dict [("name", .str "model1")])⟩]).result =
      .ok (.dict [("name", .str "model1")]) :=
  get_model_two_requests
    ⟨"b/", "t", "o", [("Authorization", "Token token=t")], .none, .none, .none⟩
    "w1" "m1" (.dict [("componentModel", .str "m1")]) (.dict [("name", .str "model1")])
    ⟨200, "OK", "", some (.dict [("componentModel", .str "m1")])⟩
    ⟨200, "OK", "", some (.dict [("name", .str "model1")])⟩
    [] rfl rfl rfl

/-- C10: a successful get_model overwrites the cached workspace with the
workspace fetched for ws_id (and the cached model with the fetched model),
whatever was cached before. -/
theorem get_model_overwrites_workspace (st : ClientState) (wid cm : String)
    (ws m : PyVal) (r1 r2 : HttpResponse) (rest : List HttpResponse)
    (h1 : unwrap_response r1 = .ok ws)
    (hcm : ws.subscript "componentModel" = .ok (.str cm))
    (h2 : unwrap_response r2 = .ok m) :
    (get_model st (some wid) (r1 :: r2 :: rest)).result = .ok m
  ∧ (get_model st (some wid) (r1 :: r2 :: rest)).state.workspace = ws
  ∧ (get_model st (some wid) (r1 :: r2 :: rest)).state.model = m := by
  simp [get_model, client_get, doRequest, dictUpdate, h1, hcm, h2]

/-- Witness for C10: a stale workspace cache is overwritten by get_model. -/
theorem get_model_overwrites_workspace_witness :
    (get_model ⟨"b/", "t", "o", [("Authorization", "Token token=t")], .none,
        .dict [("_id", .str "stale")], .none⟩
        (some "w1")
        [⟨200, "OK", "", some (.dict [("componentModel", .str "m1")])⟩,
         ⟨200, "OK", "", some (.dict [("name", .str "model1")])⟩]).result =
      .ok (.dict [("name", .str "model1")])
  ∧ (get_model ⟨"b/", "t", "o", [("Authorization", "Token token=t")], .none,
        .dict [("_id", .str "stale")], .none⟩
        (some "w1")
        [⟨200, "OK", "", some (.dict [("componentModel", .str "m1")])⟩,
         ⟨200, "OK", "", some (.dict [("name", .str "model1")])⟩]).state.workspace =
      .dict [("componentModel", .str "m1")]
  ∧ (get_model ⟨"b/", "t", "o", [("Authorization", "Token token=t")], .none,
        .dict [("_id", .str "stale")], .none⟩
        (some "w1")
        [⟨200, "OK", "", some (.dict [("componentModel", .str "m1")])⟩,
         ⟨200, "OK", "", some (.dict [("name", .str "model1")])⟩]).state.model =
      .dict [("name", .str "model1")] :=
  get_model_overwrites_workspace
    ⟨"b/", "t", "o", [("Authorization", "Token token=t")], .none,
      .dict [("_id", .str "stale")], .none⟩
    "w1" "m1" (.dict [("componentModel", .str "m1")]) (.dict [("name", .str "model1")])
    ⟨200, "OK", "", some (.dict [("componentModel", .str "m1")])⟩
    ⟨200, "OK", "", some (.dict [("name", .str "model1")])⟩
    [] rfl rfl rfl

/-- C8: with a workspace id supplied, get_reference issues a single GET of
reference/ref_id (the reference id defaulting to the empty string) whose
query parameters are workspace=ws_id plus the injected org, and returns
the unwrapped response; the client state is untouched. -/
theorem get_reference_request_shape (st : ClientState) (wid : String)
    (rid : Option String) (r : HttpResponse) (rest : List HttpResponse) :
    (get_reference st (some wid) rid (r :: rest)).requests =
      [⟨.get, st.baseurl ++ ("reference/" ++ rid.getD ""),
        [("workspace", wid), ("org", st.org)], Option.none, st.headers⟩]
  ∧ (get_reference st (some wid) rid (r :: rest)).result = unwrap_response r
  ∧ (get_reference st (some wid) rid (r :: rest)).state = st
  ∧ (get_reference st (some wid) rid (r :: rest)).leftover = rest := by
  cases rid <;> refine ⟨?_, rfl, rfl, rfl⟩ <;> simp [get_reference, client_get, doRequest, dictUpdate]

/-- Lookup on a cons: the head answers when its key matches, otherwise the
tail is consulted. -/
theorem lookupParam_cons (x : String × String) (l : List (String × String)) (k : String) :
    lookupParam (x :: l) k = if x.1 == k then some x.2 else lookupParam l k := by
  by_cases hx : x.1 == k
  · rw [if_pos hx]
    simp [lookupParam, List.find?, hx]
  · rw [if_neg hx]
    simp only [Bool.not_eq_true] at hx
    simp [lookupParam, List.find?, hx]

/-- Updating key k always makes a later lookup of k return the new value,
whether k was present (replaced in place) or absent (appended). -/
theorem lookupParam_dictUpdate (d : List (String × String)) (k v : String) :
    lookupParam (dictUpdate d k v) k = some v := by
  by_cases hany : d.any (fun q => q.1 == k)
  · rw [dictUpdate, if_pos hany]
    induction d with
    | nil => simp at hany
    | cons p rest ih =>
      rw [List.map_cons]
      by_cases hp : p.1 == k
      · rw [if_pos hp, lookupParam_cons]
        simp
      · rw [if_neg hp, lookupParam_cons, if_neg hp]
        have hr : rest.any (fun q => q.1 == k) = true := by
          simpa [List.any_cons, Bool.not_eq_true, hp] using hany
        exact ih hr
  · rw [dictUpdate, if_neg hany]
    induction d with
    | nil =>
      rw [List.nil_append, lookupParam_cons]
      simp
    | cons p rest ih =>
      simp only [List.any_cons, Bool.or_eq_true, not_or, Bool.not_eq_true] at hany
      obtain ⟨hp, hr⟩ := hany
      rw [List.cons_append, lookupParam_cons, if_neg (by simp [hp])]
      exact ih (by simp [hr])

/-- A request is well formed for a client when it is sent with the session
headers of that client and its query parameters resolve org to the
organization of that client. -/
def wellFormedReq (st : ClientState) (req : Request) : Prop :=
  req.headers = st.headers ∧ lookupParam req.params "org" = some st.org

/-- Every request recorded by the shared request helper carries the session
headers and the injected org parameter. -/
theorem doRequest_wellFormed (st : ClientState) (m : Method) (resrc : String)
    (kwargs : List (String × String)) (body : Option PyVal)
    (oracle : List HttpResponse) :
    ∀ req ∈ (doRequest st m resrc kwargs body oracle).2.1, wellFormedReq st req := by
  intro req hreq
  have hr : req = ⟨m, st.baseurl ++ resrc, dictUpdate kwargs "org" st.org, body, st.headers⟩ := by
    cases oracle <;> simpa [doRequest] using hreq
  subst hr
  exact ⟨rfl, lookupParam_dictUpdate kwargs "org" st.org⟩

/-- Requests of create_workspace are well formed. -/
theorem create_workspace_wellFormed (st : ClientState) (doc : PyVal)
    (oracle : List HttpResponse) :
    ∀ req ∈ (create_workspace st doc oracle).requests, wellFormedReq st req := by
  cases doc with
  | none => intro req hreq; exact absurd hreq (List.not_mem_nil req)
  | bool b => exact doRequest_wellFormed st .post "workspace" [] (some (.bool b)) oracle
  | int n => exact doRequest_wellFormed st .post "workspace" [] (some (.int n)) oracle
  | str s => exact doRequest_wellFormed st .post "workspace" [] (some (.str s)) oracle
  | list xs => exact doRequest_wellFormed st .post "workspace" [] (some (.list xs)) oracle
  | dict fs => exact doRequest_wellFormed st .post "workspace" [] (some (.dict fs)) oracle

/-- Requests of del_workspace are well formed. -/
theorem del_workspace_wellFormed (st : ClientState) (wid : Option String)
    (oracle : List HttpResponse) :
    ∀ req ∈ (del_workspace st wid oracle).requests, wellFormedReq st req := by
  cases wid with
  | none => intro req hreq; exact absurd hreq (List.not_mem_nil req)
  | some w => exact doRequest_wellFormed st .delete ("workspace/" ++ w) [] Option.none oracle

/-- Requests of create_component are well formed. -/
theorem create_component_wellFormed (st : ClientState) (doc : PyVal)
    (oracle : List HttpResponse) :
    ∀ req ∈ (create_component st doc oracle).requests, wellFormedReq st req := by
  cases doc with
  | none => intro req hreq; exact absurd hreq (List.not_mem_nil req)
  | bool b => exact doRequest_wellFormed st .post "component" [] (some (.bool b)) oracle
  | int n => exact doRequest_wellFormed st .post "component" [] (some (.int n)) oracle
  | str s => exact doRequest_wellFormed st .post "component" [] (some (.str s)) oracle
  | list xs => exact doRequest_wellFormed st .post "component" [] (some (.list xs)) oracle
  | dict fs => exact doRequest_wellFormed st .post "component" [] (some (.dict fs)) oracle

/-- Requests of get_component are well formed. -/
theorem get_component_wellFormed (st : ClientState) (wid cid : Option String)
    (oracle : List HttpResponse) :
    ∀ req ∈ (get_component st wid cid oracle).requests, wellFormedReq st req := by
  cases wid with
  | none => intro req hreq; exact absurd hreq (List.not_mem_nil req)
  | some w =>
    cases cid with
    | none => exact doRequest_wellFormed st .get ("workspace/" ++ w ++ "/component") [] Option.none oracle
    | some c => exact doRequest_wellFormed st .get ("component/" ++ c) [] Option.none oracle

/-- Requests of update_component are well formed. -/
theorem update_component_wellFormed (st : ClientState) (wid cid : Option String)
    (doc : PyVal) (oracle : List HttpResponse) :
    ∀ req ∈ (update_component st wid cid doc oracle).requests, wellFormedReq st req := by
  cases wid with
  | none => intro req hreq; cases cid <;> cases doc <;> exact absurd hreq (List.not_mem_nil req)
  | some w =>
    cases cid with
    | none => intro req hreq; cases doc <;> exact absurd hreq (List.not_mem_nil req)
    | some c =>
      cases doc with
      | none => intro req hreq; exact absurd hreq (List.not_mem_nil req)
      | bool b => exact doRequest_wellFormed st .put ("component/" ++ c) [] (some (.bool b)) oracle
      | int n => exact doRequest_wellFormed st .put ("component/" ++ c) [] (some (.int n)) oracle
      | str s => exact doRequest_wellFormed st .put ("component/" ++ c) [] (some (.str s)) oracle
      | list xs => exact doRequest_wellFormed st .put ("component/" ++ c) [] (some (.list xs)) oracle
      | dict fs => exact doRequest_wellFormed st .put ("component/" ++ c) [] (some (.dict fs)) oracle

/-- Requests of del_component are well formed. -/
theorem del_component_wellFormed (st : ClientState) (cid : Option String)
    (oracle : List HttpResponse) :
    ∀ req ∈ (del_component st cid oracle).requests, wellFormedReq st req := by
  cases cid with
  | none => intro req hreq; exact absurd hreq (List.not_mem_nil req)
  | some c => exact doRequest_wellFormed st .delete ("component/" ++ c) [] Option.none oracle

/-- Requests of create_reference are well formed. -/
theorem create_reference_wellFormed (st : ClientState) (doc : PyVal)
    (oracle : List HttpResponse) :
    ∀ req ∈ (create_reference st doc oracle).requests, wellFormedReq st req := by
  cases doc with
  | none => intro req hreq; exact absurd hreq (List.not_mem_nil req)
  | bool b => exact doRequest_wellFormed st .post "reference" [] (some (.bool b)) oracle
  | int n => exact doRequest_wellFormed st .post "reference" [] (some (.int n)) oracle
  | str s => exact doRequest_wellFormed st .post "reference" [] (some (.str s)) oracle
  | list xs => exact doRequest_wellFormed st .post "reference" [] (some (.list xs)) oracle
  | dict fs => exact doRequest_wellFormed st .post "reference" [] (some (.dict fs)) oracle

/-- Requests of get_reference are well formed. -/
theorem get_reference_wellFormed (st : ClientState) (wid rid : Option String)
    (oracle : List HttpResponse) :
    ∀ req ∈ (get_reference st wid rid oracle).requests, wellFormedReq st req := by
  cases wid with
  | none => intro req hreq; exact absurd hreq (List.not_mem_nil req)
  | some w =>
    cases rid with
    | none => exact doRequest_wellFormed st .get ("reference/" ++ "") [("workspace", w)] Option.none oracle
    | some rid => exact doRequest_wellFormed st .get ("reference/" ++ rid) [("workspace", w)] Option.none oracle

/-- Requests of del_reference are well formed. -/
theorem del_reference_wellFormed (st : ClientState) (rid : Option String)
    (oracle : List HttpResponse) :
    ∀ req ∈ (del_reference st rid oracle).requests, wellFormedReq st req := by
  cases rid with
  | none => intro req hreq; exact absurd hreq (List.not_mem_nil req)
  | some r => exact doRequest_wellFormed st .delete ("reference/" ++ r) [] Option.none oracle

/-- Requests of get_workspaces are well formed. -/
theorem get_workspaces_wellFormed (st : ClientState) (oracle : List HttpResponse) :
    ∀ req ∈ (get_workspaces st oracle).requests, wellFormedReq st req := by
  intro req hreq
  refine doRequest_wellFormed st .get "workspace" [] Option.none oracle req ?_
  unfold get_workspaces at hreq
  rcases hg : client_get st "workspace" [] oracle with ⟨res, reqs, rest⟩
  rw [hg] at hreq
  rw [show doRequest st .get "workspace" [] Option.none oracle = (res, reqs, rest) from hg]
  cases res <;> exact hreq

theorem get_model_wellFormed (st : ClientState) (wid : Option String)
    (oracle : List HttpResponse) :
    ∀ req ∈ (get_model st wid oracle).requests, wellFormedReq st req := by
  cases wid with
  | none => intro req hreq; exact absurd hreq (List.not_mem_nil req)
  | some w =>
    intro req hreq
    unfold get_model at hreq
    simp only [] at hreq
    rcases hg1 : client_get st ("workspace" ++ "/" ++ w) [] oracle with ⟨res1, reqs1, rest1⟩
    rw [hg1] at hreq
    cases res1 with
    | error e =>
      refine doRequest_wellFormed st .get ("workspace" ++ "/" ++ w) [] Option.none oracle req ?_
      rw [show doRequest st .get ("workspace" ++ "/" ++ w) [] Option.none oracle = (Except.error e, reqs1, rest1) from hg1]
      exact hreq
    | ok ws =>
      simp only [] at hreq
      have hmem1 : req ∈ reqs1 → wellFormedReq st req := by
        intro hr1
        refine doRequest_wellFormed st .get ("workspace" ++ "/" ++ w) [] Option.none oracle req ?_
        rw [show doRequest st .get ("workspace" ++ "/" ++ w) [] Option.none oracle = (Except.ok ws, reqs1, rest1) from hg1]
        exact hr1
      rcases hs : ws.subscript "componentModel" with e | u
      · rw [hs] at hreq
        exact hmem1 hreq
      · rw [hs] at hreq
        cases u with
        | str cm =>
          simp only [] at hreq
          rcases hg2 : client_get { st with workspace := ws } ("model" ++ "/" ++ cm) [] rest1 with ⟨res2, reqs2, rest2⟩
          rw [hg2] at hreq
          have hmem2 : req ∈ reqs2 → wellFormedReq st req := by
            intro hr2
            refine doRequest_wellFormed { st with workspace := ws } .get ("model" ++ "/" ++ cm) [] Option.none rest1 req ?_
            rw [show doRequest { st with workspace := ws } .get ("model" ++ "/" ++ cm) [] Option.none rest1 = (res2, reqs2, rest2) from hg2]
            exact hr2
          cases res2 with
          | error e2 =>
            rcases List.mem_append.mp hreq with hr1 | hr2
            · exact hmem1 hr1
            · exact hmem2 hr2
          | ok m =>
            rcases List.mem_append.mp hreq with hr1 | hr2
            · exact hmem1 hr1
            · exact hmem2 hr2
        | none => exact hmem1 hreq
        | bool b => exact hmem1 hreq
        | int n => exact hmem1 hreq
        | list xs => exact hmem1 hreq
        | dict fs => exact hmem1 hreq

theorem get_workspace_wellFormed (st : ClientState) (wid : Option String)
    (oracle : List HttpResponse) :
    ∀ req ∈ (get_workspace st wid oracle).requests, wellFormedReq st req := by
  cases wid with
  | none => intro req hreq; exact absurd hreq (List.not_mem_nil req)
  | some w =>
    intro req hreq
    unfold get_workspace at hreq
    simp only [] at hreq
    rcases hw : st.workspaces with _ | b | n | s | xs | fields <;> rw [hw] at hreq <;> simp only [] at hreq
    · -- no cached list: direct fallback on st
      rcases hg : client_get st ("workspace" ++ "/" ++ w) [] oracle with ⟨res, reqs, rest⟩
      rw [hg] at hreq
      refine doRequest_wellFormed st .get ("workspace" ++ "/" ++ w) [] Option.none oracle req ?_
      rw [show doRequest st .get ("workspace" ++ "/" ++ w) [] Option.none oracle = (res, reqs, rest) from hg]
      cases res <;> exact hreq
    · -- cached bool: iteration raises TypeError, no requests
      exact absurd hreq (List.not_mem_nil req)
    · -- cached int: iteration raises TypeError, no requests
      exact absurd hreq (List.not_mem_nil req)
    · -- cached string: iterates characters
      simp only [PyVal.iter] at hreq
      rcases hfl : findWsLoop w (s.toList.map (fun c => PyVal.str (String.singleton c))) false st.workspace with ⟨flres, flfound, flws⟩
      rw [hfl] at hreq
      cases flres with
      | error e => exact absurd hreq (List.not_mem_nil req)
      | ok u =>
        cases flfound with
        | true => exact absurd hreq (List.not_mem_nil req)
        | false =>
          simp only [] at hreq
          rcases hg : client_get { st with workspaces := PyVal.str s, workspace := flws } ("workspace" ++ "/" ++ w) [] oracle with ⟨res, reqs, rest⟩
          rw [hg] at hreq
          refine doRequest_wellFormed { st with workspaces := PyVal.str s, workspace := flws } .get ("workspace" ++ "/" ++ w) [] Option.none oracle req ?_
          rw [show doRequest { st with workspaces := PyVal.str s, workspace := flws } .get ("workspace" ++ "/" ++ w) [] Option.none oracle = (res, reqs, rest) from hg]
          cases res <;> exact hreq
    · -- cached list: iterates elements
      simp only [PyVal.iter] at hreq
      rcases hfl : findWsLoop w xs false st.workspace with ⟨flres, flfound, flws⟩
      rw [hfl] at hreq
      cases flres with
      | error e => exact absurd hreq (List.not_mem_nil req)
      | ok u =>
        cases flfound with
        | true => exact absurd hreq (List.not_mem_nil req)
        | false =>
          simp only [] at hreq
          rcases hg : client_get { st with workspaces := PyVal.list xs, workspace := flws } ("workspace" ++ "/" ++ w) [] oracle with ⟨res, reqs, rest⟩
          rw [hg] at hreq
          refine doRequest_wellFormed { st with workspaces := PyVal.list xs, workspace := flws } .get ("workspace" ++ "/" ++ w) [] Option.none oracle req ?_
          rw [show doRequest { st with workspaces := PyVal.list xs, workspace := flws } .get ("workspace" ++ "/" ++ w) [] Option.none oracle = (res, reqs, rest) from hg]
          cases res <;> exact hreq
    · -- cached dict: iterates keys
      simp only [PyVal.iter] at hreq
      rcases hfl : findWsLoop w (fields.map (fun p => PyVal.str p.1)) false st.workspace with ⟨flres, flfound, flws⟩
      rw [hfl] at hreq
      cases flres with
      | error e => exact absurd hreq (List.not_mem_nil req)
      | ok u =>
        cases flfound with
        | true => exact absurd hreq (List.not_mem_nil req)
        | false =>
          simp only [] at hreq
          rcases hg : client_get { st with workspaces := PyVal.dict fields, workspace := flws } ("workspace" ++ "/" ++ w) [] oracle with ⟨res, reqs, rest⟩
          rw [hg] at hreq
          refine doRequest_wellFormed { st with workspaces := PyVal.dict fields, workspace := flws } .get ("workspace" ++ "/" ++ w) [] Option.none oracle req ?_
          rw [show doRequest { st with workspaces := PyVal.dict fields, workspace := flws } .get ("workspace" ++ "/" ++ w) [] Option.none oracle = (res, reqs, rest) from hg]
          cases res <;> exact hreq

/-- C5: every outgoing HTTP request issued by any client operation carries
the query parameter org resolving to the organization configured on the
client, whatever caller-supplied parameters were merged in. -/
theorem org_param_on_every_request (st : ClientState) :
    (∀ oracle, ∀ req ∈ (get_workspaces st oracle).requests,
        lookupParam req.params "org" = some st.org)
  ∧ (∀ wid oracle, ∀ req ∈ (get_workspace st wid oracle).requests,
        lookupParam req.params "org" = some st.org)
  ∧ (∀ doc oracle, ∀ req ∈ (create_workspace st doc oracle).requests,
        lookupParam req.params "org" = some st.org)
  ∧ (∀ wid oracle, ∀ req ∈ (del_workspace st wid oracle).requests,
        lookupParam req.params "org" = some st.org)
  ∧ (∀ wid oracle, ∀ req ∈ (get_model st wid oracle).requests,
        lookupParam req.params "org" = some st.org)
  ∧ (∀ doc oracle, ∀ req ∈ (create_component st doc oracle).requests,
        lookupParam req.params "org" = some st.org)
  ∧ (∀ wid cid oracle, ∀ req ∈ (get_component st wid cid oracle).requests,
        lookupParam req.params "org" = some st.org)
  ∧ (∀ wid cid doc oracle, ∀ req ∈ (update_component st wid cid doc oracle).requests,
        lookupParam req.params "org" = some st.org)
  ∧ (∀ cid oracle, ∀ req ∈ (del_component st cid oracle).requests,
        lookupParam req.params "org" = some st.org)
  ∧ (∀ doc oracle, ∀ req ∈ (create_reference st doc oracle).requests,
        lookupParam req.params "org" = some st.org)
  ∧ (∀ wid rid oracle, ∀ req ∈ (get_reference st wid rid oracle).requests,
        lookupParam req.params "org" = some st.org)
  ∧ (∀ rid oracle, ∀ req ∈ (del_reference st rid oracle).requests,
        lookupParam req.params "org" = some st.org) := by
  refine ⟨?_, ?_, ?_, ?_, ?_, ?_, ?_, ?_, ?_, ?_, ?_, ?_⟩
  · intro oracle req h; exact (get_workspaces_wellFormed st oracle req h).2
  · intro wid oracle req h; exact (get_workspace_wellFormed st wid oracle req h).2
  · intro doc oracle req h; exact (create_workspace_wellFormed st doc oracle req h).2
  · intro wid oracle req h; exact (del_workspace_wellFormed st wid oracle req h).2
  · intro wid oracle req h; exact (get_model_wellFormed st wid oracle req h).2
  · intro doc oracle req h; exact (create_component_wellFormed st doc oracle req h).2
  · intro wid cid oracle req h; exact (get_component_wellFormed st wid cid oracle req h).2
  · intro wid cid doc oracle req h; exact (update_component_wellFormed st wid cid doc oracle req h).2
  · intro cid oracle req h; exact (del_component_wellFormed st cid oracle req h).2
  · intro doc oracle req h; exact (create_reference_wellFormed st doc oracle req h).2
  · intro wid rid oracle req h; exact (get_reference_wellFormed st wid rid oracle req h).2
  · intro rid oracle req h; exact (del_reference_wellFormed st rid oracle req h).2

/-- Witness for C5: the single request of a concrete create_component call
resolves org to the configured organization acme. -/
theorem org_param_on_every_request_witness :
    lookupParam [("org", "acme")] "org" = some "acme" :=
  (org_param_on_every_request
      ⟨"b/", "t", "acme", [("Authorization", "Token token=t")], .none, .none, .none⟩).2.2.2.2.2.1
    (PyVal.dict []) []
    ⟨Method.post, "b/" ++ "component", [("org", "acme")], some (PyVal.dict []),
      [("Authorization", "Token token=t")]⟩
    (List.Mem.head _)

/-- C6: for a client built with token t, every outgoing HTTP request of
every operation is sent with the session header
Authorization: Token token=t. -/
theorem auth_header_on_every_request (hosturl t org : String) (st : ClientState)
    (hinit : ArdoqClient_init hosturl (some t) org = .ok st) :
    (∀ oracle, ∀ req ∈ (get_workspaces st oracle).requests,
        ("Authorization", "Token token=" ++ t) ∈ req.headers)
  ∧ (∀ wid oracle, ∀ req ∈ (get_workspace st wid oracle).requests,
        ("Authorization", "Token token=" ++ t) ∈ req.headers)
  ∧ (∀ doc oracle, ∀ req ∈ (create_workspace st doc oracle).requests,
        ("Authorization", "Token token=" ++ t) ∈ req.headers)
  ∧ (∀ wid oracle, ∀ req ∈ (del_workspace st wid oracle).requests,
        ("Authorization", "Token token=" ++ t) ∈ req.headers)
  ∧ (∀ wid oracle, ∀ req ∈ (get_model st wid oracle).requests,
        ("Authorization", "Token token=" ++ t) ∈ req.headers)
  ∧ (∀ doc oracle, ∀ req ∈ (create_component st doc oracle).requests,
        ("Authorization", "Token token=" ++ t) ∈ req.headers)
  ∧ (∀ wid cid oracle, ∀ req ∈ (get_component st wid cid oracle).requests,
        ("Authorization", "Token token=" ++ t) ∈ req.headers)
  ∧ (∀ wid cid doc oracle, ∀ req ∈ (update_component st wid cid doc oracle).requests,
        ("Authorization", "Token token=" ++ t) ∈ req.headers)
  ∧ (∀ cid oracle, ∀ req ∈ (del_component st cid oracle).requests,
        ("Authorization", "Token token=" ++ t) ∈ req.headers)
  ∧ (∀ doc oracle, ∀ req ∈ (create_reference st doc oracle).requests,
        ("Authorization", "Token token=" ++ t) ∈ req.headers)
  ∧ (∀ wid rid oracle, ∀ req ∈ (get_reference st wid rid oracle).requests,
        ("Authorization", "Token token=" ++ t) ∈ req.headers)
  ∧ (∀ rid oracle, ∀ req ∈ (del_reference st rid oracle).requests,
        ("Authorization", "Token token=" ++ t) ∈ req.headers) := by
  have hrec : st = ⟨hosturl ++ "/api/", t, org,
      [("Authorization", "Token token=" ++ t)], .none, .none, .none⟩ := by
    have h := hinit
    simp only [ArdoqClient_init] at h
    exact (Except.ok.inj h).symm
  subst hrec
  refine ⟨?_, ?_, ?_, ?_, ?_, ?_, ?_, ?_, ?_, ?_, ?_, ?_⟩
  · intro oracle req h
    rw [(get_workspaces_wellFormed _ oracle req h).1]
    exact List.Mem.head _
  · intro wid oracle req h
    rw [(get_workspace_wellFormed _ wid oracle req h).1]
    exact List.Mem.head _
  · intro doc oracle req h
    rw [(create_workspace_wellFormed _ doc oracle req h).1]
    exact List.Mem.head _
  · intro wid oracle req h
    rw [(del_workspace_wellFormed _ wid oracle req h).1]
    exact List.Mem.head _
  · intro wid oracle req h
    rw [(get_model_wellFormed _ wid oracle req h).1]
    exact List.Mem.head _
  · intro doc oracle req h
    rw [(create_component_wellFormed _ doc oracle req h).1]
    exact List.Mem.head _
  · intro wid cid oracle req h
    rw [(get_component_wellFormed _ wid cid oracle req h).1]
    exact List.Mem.head _
  · intro wid cid doc oracle req h
    rw [(update_component_wellFormed _ wid cid doc oracle req h).1]
    exact List.Mem.head _
  · intro cid oracle req h
    rw [(del_component_wellFormed _ cid oracle req h).1]
    exact List.Mem.head _
  · intro doc oracle req h
    rw [(create_reference_wellFormed _ doc oracle req h).1]
    exact List.Mem.head _
  · intro wid rid oracle req h
    rw [(get_reference_wellFormed _ wid rid oracle req h).1]
    exact List.Mem.head _
  · intro rid oracle req h
    rw [(del_reference_wellFormed _ rid oracle req h).1]
    exact List.Mem.head _

/-- Witness for C6: the single request of a concrete get_workspaces call on
a freshly constructed client carries the Authorization header. -/
theorem auth_header_on_every_request_witness :
    ("Authorization", "Token token=" ++ "tok") ∈
      ([("Authorization", "Token token=" ++ "tok")] : List (String × String)) :=
  (auth_header_on_every_request "h" "tok" "o"
      ⟨"h" ++ "/api/", "tok", "o", [("Authorization", "Token token=" ++ "tok")],
        .none, .none, .none⟩ rfl).1
    [] ⟨Method.get, ("h" ++ "/api/") ++ "workspace", [("org", "o")], Option.none,
      [("Authorization", "Token token=" ++ "tok")]⟩
    (List.Mem.head _)

/-- When every scanned element subscripts successfully and none matches
ws_id, the loop finishes without a hit and leaves its accumulators as they
were. -/
theorem findWsLoop_nomatch (wid : String) (items : List PyVal)
    (hall : ∀ v ∈ items, ∃ u, v.subscript "_id" = .ok u)
    (hno : ∀ v ∈ items, v.subscript "_id" ≠ .ok (.str wid)) :
    ∀ (f : Bool) (w : PyVal), findWsLoop wid items f w = (.ok (), f, w) := by
  induction items with
  | nil => intro f w; rfl
  | cons a rest ih =>
    intro f w
    obtain ⟨u, hu⟩ := hall a (List.Mem.head _)
    simp only [findWsLoop, hu]
    have ihr := ih (fun v hv => hall v (List.Mem.tail _ hv))
      (fun v hv => hno v (List.Mem.tail _ hv))
    cases u with
    | str s =>
      simp only []
      by_cases hs : s = wid
      · exact absurd (hs ▸ hu) (hno a (List.Mem.head _))
      · rw [if_neg hs]; exact ihr f w
    | none => exact ihr f w
    | bool b => exact ihr f w
    | int n => exact ihr f w
    | list xs => exact ihr f w
    | dict fs => exact ihr f w

/-- Scanning with tracked workspace v, when every element that matches
ws_id is v itself, ends with v still tracked and the hit flag kept. -/
theorem findWsLoop_stay (wid : String) (items : List PyVal) (v : PyVal)
    (hall : ∀ x ∈ items, ∃ u, x.subscript "_id" = .ok u)
    (hv : ∀ x ∈ items, x.subscript "_id" = .ok (.str wid) → x = v) :
    findWsLoop wid items true v = (.ok (), true, v) := by
  induction items with
  | nil => rfl
  | cons a rest ih =>
    obtain ⟨u, hu⟩ := hall a (List.Mem.head _)
    simp only [findWsLoop, hu]
    have ihr := ih (fun x hx => hall x (List.Mem.tail _ hx))
      (fun x hx => hv x (List.Mem.tail _ hx))
    cases u with
    | str s =>
      simp only []
      by_cases hs : s = wid
      · rw [if_pos hs]
        rw [hv a (List.Mem.head _) (hs ▸ hu)]
        exact ihr
      · rw [if_neg hs]; exact ihr
    | none => exact ihr
    | bool b => exact ihr
    | int n => exact ihr
    | list xs => exact ihr
    | dict fs => exact ihr

/-- When every element subscripts successfully and exactly one cached
entry v matches ws_id (up to duplicates of v itself), the loop reports a
hit with v as the tracked workspace, from any starting accumulators. -/
theorem findWsLoop_unique (wid : String) (items : List PyVal) (v : PyVal)
    (hall : ∀ x ∈ items, ∃ u, x.subscript "_id" = .ok u)
    (hv : v ∈ items) (hvm : v.subscript "_id" = .ok (.str wid))
    (huniq : ∀ x ∈ items, x.subscript "_id" = .ok (.str wid) → x = v) :
    ∀ (f : Bool) (w : PyVal), findWsLoop wid items f w = (.ok (), true, v) := by
  induction items with
  | nil => cases hv
  | cons a rest ih =>
    intro f w
    obtain ⟨u, hu⟩ := hall a (List.Mem.head _)
    simp only [findWsLoop, hu]
    by_cases hm : a.subscript "_id" = .ok (.str wid)
    · have hu2 : u = .str wid := by
        rw [hu] at hm
        exact Except.ok.inj hm
      subst hu2
      simp only [if_true]
      rw [huniq a (List.Mem.head _) hm]
      exact findWsLoop_stay wid rest v
        (fun x hx => hall x (List.Mem.tail _ hx))
        (fun x hx => huniq x (List.Mem.tail _ hx))
    · have hvr : v ∈ rest := by
        cases hv with
        | head => exact absurd hvm hm
        | tail _ h => exact h
      have ihr := ih (fun x hx => hall x (List.Mem.tail _ hx)) hvr
        (fun x hx => huniq x (List.Mem.tail _ hx))
      cases u with
      | str s =>
        simp only []
        by_cases hs : s = wid
        · exact absurd (hs ▸ hu) hm
        · rw [if_neg hs]; exact ihr f w
      | none => exact ihr f w
      | bool b => exact ihr f w
      | int n => exact ihr f w
      | list xs => exact ihr f w
      | dict fs => exact ihr f w

/-- C3: get_workspace consults the cached workspace list first: when the
cached list holds the entry whose _id equals ws_id, that entry is returned
and cached as the current workspace with no request issued; when no list
has been fetched, or the cached list has no matching entry, exactly one
direct GET of workspace/ws_id is issued and its unwrapped result is
returned and cached. -/
theorem get_workspace_cache_behavior (st : ClientState) (wid : String)
    (oracle : List HttpResponse) :
    (∀ items v, st.workspaces = .list items →
      (∀ x ∈ items, ∃ u, x.subscript "_id" = .ok u) →
      v ∈ items → v.subscript "_id" = .ok (.str wid) →
      (∀ x ∈ items, x.subscript "_id" = .ok (.str wid) → x = v) →
        get_workspace st (some wid) oracle =
          ⟨.ok v, { st with workspace := v }, [], oracle⟩)
  ∧ (st.workspaces = .none →
        (get_workspace st (some wid) oracle).requests =
          [⟨.get, st.baseurl ++ ("workspace" ++ "/" ++ wid), [("org", st.org)],
            Option.none, st.headers⟩]
      ∧ ∀ r rest, oracle = r :: rest →
            (get_workspace st (some wid) oracle).result = unwrap_response r
          ∧ (get_workspace st (some wid) oracle).leftover = rest
          ∧ ∀ v, unwrap_response r = .ok v →
              (get_workspace st (some wid) oracle).state = { st with workspace := v })
  ∧ (∀ items, st.workspaces = .list items →
      (∀ x ∈ items, ∃ u, x.subscript "_id" = .ok u ∧ u ≠ .str wid) →
        (get_workspace st (some wid) oracle).requests =
          [⟨.get, st.baseurl ++ ("workspace" ++ "/" ++ wid), [("org", st.org)],
            Option.none, st.headers⟩]
      ∧ ∀ r rest, oracle = r :: rest →
            (get_workspace st (some wid) oracle).result = unwrap_response r
          ∧ (get_workspace st (some wid) oracle).leftover = rest
          ∧ ∀ v, unwrap_response r = .ok v →
              (get_workspace st (some wid) oracle).state = { st with workspace := v }) := by
  refine ⟨?_, ?_, ?_⟩
  · intro items v hw hall hv hvm huniq
    unfold get_workspace
    rw [hw]
    simp only [PyVal.iter]
    rw [findWsLoop_unique wid items v hall hv hvm huniq false st.workspace]
  · intro hw
    cases oracle with
    | nil =>
      refine ⟨?_, ?_⟩
      · unfold get_workspace
        rw [hw]
        rfl
      · intro r rest h
        cases h
    | cons r0 rest0 =>
      refine ⟨?_, ?_⟩
      · unfold get_workspace
        rw [hw]
        simp only [client_get, doRequest]
        rcases hu : unwrap_response r0 with e | v <;> rfl
      · intro r rest h
        cases h
        refine ⟨?_, ?_, ?_⟩
        · unfold get_workspace
          rw [hw]
          simp only [client_get, doRequest]
          rcases hu : unwrap_response r0 with e | v <;> rfl
        · unfold get_workspace
          rw [hw]
          simp only [client_get, doRequest]
          rcases hu : unwrap_response r0 with e | v <;> rfl
        · intro v hv
          unfold get_workspace
          rw [hw]
          simp only [client_get, doRequest]
          rw [hv]
  · intro items hw hall2
    have hall : ∀ x ∈ items, ∃ u, x.subscript "_id" = .ok u := by
      intro x hx
      obtain ⟨u, hu, _⟩ := hall2 x hx
      exact ⟨u, hu⟩
    have hno : ∀ x ∈ items, x.subscript "_id" ≠ .ok (.str wid) := by
      intro x hx hcontra
      obtain ⟨u, hu, hne⟩ := hall2 x hx
      rw [hu] at hcontra
      exact hne (Except.ok.inj hcontra)
    cases oracle with
    | nil =>
      refine ⟨?_, ?_⟩
      · unfold get_workspace
        rw [hw]
        simp only [PyVal.iter]
        rw [findWsLoop_nomatch wid items hall hno false st.workspace]
        rfl
      · intro r rest h
        cases h
    | cons r0 rest0 =>
      refine ⟨?_, ?_⟩
      · unfold get_workspace
        rw [hw]
        simp only [PyVal.iter]
        rw [findWsLoop_nomatch wid items hall hno false st.workspace]
        simp only [client_get, doRequest]
        rcases hu : unwrap_response r0 with e | v <;> rfl
      · intro r rest h
        cases h
        refine ⟨?_, ?_, ?_⟩
        · unfold get_workspace
          rw [hw]
          simp only [PyVal.iter]
          rw [findWsLoop_nomatch wid items hall hno false st.workspace]
          simp only [client_get, doRequest]
          rcases hu : unwrap_response r0 with e | v <;> rfl
        · unfold get_workspace
          rw [hw]
          simp only [PyVal.iter]
          rw [findWsLoop_nomatch wid items hall hno false st.workspace]
          simp only [client_get, doRequest]
          rcases hu : unwrap_response r0 with e | v <;> rfl
        · intro v hv
          unfold get_workspace
          rw [hw]
          simp only [PyVal.iter]
          rw [findWsLoop_nomatch wid items hall hno false st.workspace]
          simp only [client_get, doRequest]
          rw [hv]

/-- Witness for C3: with a cached list holding workspace w1, a concrete
get_workspace call returns the cached entry with no request issued. -/
theorem get_workspace_cache_behavior_witness :
    get_workspace
      ⟨"b/", "t", "o", [("Authorization", "Token token=t")],
        .list [.dict [("_id", .str "w1"), ("componentModel", .str "m1")]], .none, .none⟩
      (some "w1") [] =
      ⟨.ok (.dict [("_id", .str "w1"), ("componentModel", .str "m1")]),
       ⟨"b/", "t", "o", [("Authorization", "Token token=t")],
        .list [.dict [("_id", .str "w1"), ("componentModel", .str "m1")]],
        .dict [("_id", .str "w1"), ("componentModel", .str "m1")], .none⟩, [], []⟩ :=
  (get_workspace_cache_behavior
      ⟨"b/", "t", "o", [("Authorization", "Token token=t")],
        .list [.dict [("_id", .str "w1"), ("componentModel", .str "m1")]], .none, .none⟩
      "w1" []).1
    [.dict [("_id", .str "w1"), ("componentModel", .str "m1")]]
    (.dict [("_id", .str "w1"), ("componentModel", .str "m1")])
    rfl
    (by
      intro x hx
      rw [List.mem_singleton] at hx
      subst hx
      exact ⟨.str "w1", rfl⟩)
    (List.Mem.head _)
    rfl
    (by
      intro x hx h
      rw [List.mem_singleton] at hx
      exact hx)
